import Mathlib

/-!
Shallow embedding of `service/gate/gate.go` (package `gate` of the `cham`
actor framework): the TCP framing protocol, the `readFull`/`serve` read
loop, the session registry (`Write`, `kick`, `addBackend`), the TCP accept
loop and the WebSocket upgrade handler, and the session-id generator.
Bytes are `Nat < 256`; Go's `uint16`/`uint32` conversions are modelled by
explicit `% 2^16` / `% 2^32`.
-/

namespace GateSpec

/-- `2^32`, the modulus of Go's `uint32` arithmetic. -/
def U32 : Nat := 4294967296

/-- `binary.BigEndian.PutUint16 head n`: the two header bytes, most
significant first.  The argument is already reduced mod `2^16` (Go's
`uint16(len(data))` conversion). -/
def putUint16 (n : Nat) : List Nat := [n / 256 % 256, n % 256]

/-- `binary.BigEndian.Uint16` on two bytes. -/
def uint16be (hi lo : Nat) : Nat := hi * 256 + lo

/-- One buffered-stream operation issued by `TcpBackend.Write` on
`t.brw` (a `bufio.ReadWriter` over the connection). -/
inductive WOp where
  | wbytes (bytes : List Nat)
  | flush
deriving DecidableEq

/-- The exact operation sequence of one `TcpBackend.Write(data)` call:
write the 2-byte big-endian header `uint16(len(data))`, write the payload,
flush.  The source takes no lock around these operations. -/
def writeOps (data : List Nat) : List WOp :=
  [WOp.wbytes (putUint16 (data.length % 65536)), WOp.wbytes data, WOp.flush]

/-- Semantics of the buffered writer: `wbytes` appends to the in-memory
buffer, `flush` moves the buffer onto the wire.  State is
`(buffer, wire)`. -/
def execOps : List Nat × List Nat → List WOp → List Nat × List Nat
  | st, [] => st
  | (buf, wire), WOp.wbytes b :: rest => execOps (buf ++ b, wire) rest
  | (buf, wire), WOp.flush :: rest => execOps ([], wire ++ buf) rest

/-- The bytes one `TcpBackend.Write(data)` call puts on the wire when it
runs alone on a fresh stream. -/
def tcpWriteWire (data : List Nat) : List Nat :=
  (execOps ([], []) (writeOps data)).2

/-- All interleavings of two operation sequences, with explicit fuel so
the recursion is structural; `interleavings` below supplies enough fuel. -/
def interleavingsF {α : Type} : Nat → List α → List α → List (List α)
  | _, [], ys => [ys]
  | _, x :: xs, [] => [x :: xs]
  | 0, _ :: _, _ :: _ => []
  | n + 1, x :: xs, y :: ys =>
      (interleavingsF n xs (y :: ys)).map (fun l => x :: l) ++
      (interleavingsF n (x :: xs) ys).map (fun l => y :: l)

/-- All interleavings of two operation sequences (the possible concurrent
executions of two unsynchronized callers). -/
def interleavings {α : Type} (xs ys : List α) : List (List α) :=
  interleavingsF (xs.length + ys.length) xs ys

/-- One `serve` iteration of the decoder on a byte stream: read 2 header
bytes, decode the big-endian length, read exactly that many body bytes;
returns the payload and the remaining stream, or `none` if the stream is
too short. -/
def readFrame (wire : List Nat) : Option (List Nat × List Nat) :=
  match wire with
  | h1 :: h2 :: rest =>
      let len := uint16be h1 h2
      if len ≤ rest.length then some (rest.take len, rest.drop len) else none
  | _ => none

/-- Classification of the error value produced by one
`io.ReadFull(t.brw, buf)` call in `TcpBackend.readFull`. -/
inductive ReadErr where
  /-- an error value implementing `net.Error`, with its `Temporary()` bit -/
  | netErr (temporary : Bool)
  /-- `io.EOF` / `io.ErrUnexpectedEOF`: peer disconnect, end of stream -/
  | eof
  /-- any other non-nil error -/
  | otherErr
deriving DecidableEq

/-- `TcpBackend.readFull`: returns the error only when it is a `net.Error`
whose `Temporary()` is false; every other outcome (success, a temporary
`net.Error`, or any error that is not a `net.Error`, such as `io.EOF`)
returns nil. -/
def readFull (res : Option ReadErr) : Option ReadErr :=
  match res with
  | some (ReadErr.netErr temporary) =>
      if temporary then none else some (ReadErr.netErr temporary)
  | some _ => none
  | none => none

/-- Outcome of one iteration of `TcpBackend.serve`. -/
inductive StepRes where
  /-- `readFull` returned non-nil: `g.kick(t.session)` ran and the loop returned -/
  | kicked
  /-- both reads returned nil: `OnMessage` was notified and the loop continues -/
  | looped
deriving DecidableEq

/-- One iteration of `TcpBackend.serve`, given the raw `io.ReadFull`
outcomes of the header read and the body read. -/
def serveStep (headRes bodyRes : Option ReadErr) : StepRes :=
  match readFull headRes with
  | some _ => StepRes.kicked
  | none =>
      match readFull bodyRes with
      | some _ => StepRes.kicked
      | none => StepRes.looped

/-- A registered `Backend` as the registry sees it: the capability set
`{Write, Close}`.  `writeErr` is the result of the backend's
`Write(data)`. -/
structure BackendM where
  writeErr : List Nat → Option ReadErr

/-- State of one `Gate` value: the atomic session counter, the live-client
counter `clinetnum` (a `uint32`), the configured `maxclient`, and the
`sessions` map as an association list. -/
structure GateSt where
  session : Nat
  clinetnum : Nat
  maxclient : Nat
  sessions : List (Nat × BackendM)

/-- `New`: fresh gate, `session = 0`, `clinetnum = 0`, empty map. -/
def newGate (maxclient : Nat) : GateSt :=
  { session := 0, clinetnum := 0, maxclient := maxclient, sessions := [] }

/-- `Gate.nextSession`: `atomic.AddUint32(&g.session, 1)` — the counter
after the increment, which is also the returned id. -/
def nextSession (s : Nat) : Nat := (s + 1) % U32

/-- The counter value after `n` calls of `nextSession` on a fresh gate;
since each call returns the post-increment value, this is also the id
returned by the `n`-th call (for `n ≥ 1`). -/
def sessionAfter : Nat → Nat
  | 0 => 0
  | n + 1 => nextSession (sessionAfter n)

/-- Go's `delete(g.sessions, session)` on the association-list model. -/
def eraseKey (id : Nat) (l : List (Nat × BackendM)) : List (Nat × BackendM) :=
  l.filter (fun p => p.1 != id)

/-- Go's `uint32` decrement (`g.clinetnum--`): subtract one, wrapping to
`2^32 - 1` at zero. -/
def dec32 : Nat → Nat
  | 0 => U32 - 1
  | n + 1 => n

/-- Observable actions of one `Gate.kick` call, in program order. -/
inductive KAct where
  /-- `g.rwmutex.Lock()` -/
  | lockEx
  /-- `g.rwmutex.Unlock()` -/
  | unlockEx
  /-- `b.Close()` on the backend that was registered under this id -/
  | closeB (id : Nat)
deriving DecidableEq

/-- `Gate.kick(session)`: under the exclusive lock, if the id is present
remove it and decrement `clinetnum` (a `uint32`, so mod `2^32`); after
unlocking, call `Close()` on the removed backend iff one was found.
Returns the new state and the action trace. -/
def gateKick (g : GateSt) (id : Nat) : GateSt × List KAct :=
  match g.sessions.lookup id with
  | some _ =>
      ({ g with sessions := eraseKey id g.sessions,
                clinetnum := dec32 g.clinetnum },
       [KAct.lockEx, KAct.unlockEx, KAct.closeB id])
  | none => (g, [KAct.lockEx, KAct.unlockEx])

/-- `Gate.Write(session, data)`: shared-lock lookup; if found, return the
backend's `Write(data)` result, else return nil.  The registry is never
modified. -/
def gateWrite (g : GateSt) (id : Nat) (data : List Nat) :
    Option ReadErr × GateSt :=
  match g.sessions.lookup id with
  | some b => (b.writeErr data, g)
  | none => (none, g)

/-- A backend value as constructed by `newTcpBackend` for the accept-loop
model; its `Write` result is irrelevant to the admission claims. -/
def tcpBackendM : BackendM := { writeErr := fun _ => none }

/-- One input to the TCP accept loop: `listen.Accept()` returning an
error, an accepted connection, or a concurrent `kick` of a live session
(which can lower `clinetnum` while the loop runs). -/
inductive TEv where
  | acceptErr
  | acceptConn
  | kickEv (id : Nat)

/-- What became of each processed accept-loop input. -/
inductive AccOut where
  /-- the connection was admitted and registered under this session id -/
  | admitted (sid : Nat)
  /-- `conn.Close()` ran and the loop hit `break`: the accept loop is gone -/
  | refusedClosed
deriving DecidableEq

/-- The TCP accept loop of `Gate.open`: `Accept` errors `continue`; an
accepted connection is refused (closed, and the loop `break`s, so nothing
after it is ever processed) when `maxclient != 0 && g.clinetnum >=
maxclient`, else `clinetnum++`, a fresh session id is taken and the
backend stored in the map.  Concurrent kicks are interleaved as explicit
events. -/
def acceptLoop (g : GateSt) : List TEv → GateSt × List AccOut
  | [] => (g, [])
  | TEv.acceptErr :: rest => acceptLoop g rest
  | TEv.kickEv id :: rest => acceptLoop (gateKick g id).1 rest
  | TEv.acceptConn :: rest =>
      if g.maxclient ≠ 0 ∧ g.maxclient ≤ g.clinetnum then
        (g, [AccOut.refusedClosed])
      else
        let sid := nextSession g.session
        let g' := { g with session := sid,
                           clinetnum := (g.clinetnum + 1) % U32,
                           sessions := (sid, tcpBackendM) :: g.sessions }
        let res := acceptLoop g' rest
        (res.1, AccOut.admitted sid :: res.2)

/-- Outcome of one WebSocket upgrade request in `Gate.open`'s handler. -/
inductive WsOut where
  /-- cap reached: the handler returned before allocating a session -/
  | refused
  /-- `newWebsocket` failed after the id was allocated: id discarded -/
  | handshakeFailed (sid : Nat)
  /-- backend registered, `clinetnum++`, `ws.Start()` ran -/
  | opened (sid : Nat)
deriving DecidableEq

/-- A backend value wrapping a fresh `WebsocketBackend`. -/
def wsBackendM : BackendM := { writeErr := fun _ => none }

/-- Events the gate notifies to the owning actor. -/
inductive GEvent where
  | onOpen (sid : Nat)
  | onMessage (sid : Nat) (data : List Nat)
  | onClose (sid : Nat)
  | onPong (sid : Nat)
deriving DecidableEq

/-- The WebSocket upgrade handler of `Gate.open`: refuse silently while
`maxclient != 0 && g.clinetnum >= maxclient`; otherwise allocate a session
id; if the handshake (`newWebsocket`) fails, return with the id discarded;
on success register the backend via `addBackend`, `clinetnum++`, and
`ws.Start()` begins the event loop (whose `OnOpen` callback notifies the
actor).  Returns the new state, the outcome, and the events emitted. -/
def wsHandle (g : GateSt) (upgradeOk : Bool) :
    GateSt × WsOut × List GEvent :=
  if g.maxclient ≠ 0 ∧ g.maxclient ≤ g.clinetnum then
    (g, WsOut.refused, [])
  else
    let sid := nextSession g.session
    let g1 := { g with session := sid }
    if upgradeOk then
      ({ g1 with sessions := (sid, wsBackendM) :: g1.sessions,
                 clinetnum := (g1.clinetnum + 1) % U32 },
       WsOut.opened sid, [GEvent.onOpen sid])
    else
      (g1, WsOut.handshakeFailed sid, [])

/-- The big-endian value of the first two bytes of a wire stream (the
header the decoder would see). -/
def headVal : List Nat → Nat
  | h1 :: h2 :: _ => uint16be h1 h2
  | _ => 0

/-- The error result of `TcpBackend.Write`, given the results of the
header write, the payload write, and the flush: the first non-nil one.
The payload length is never examined on this path. -/
def tcpWriteErr (e1 e2 e3 : Option ReadErr) : Option ReadErr :=
  match e1 with
  | some e => some e
  | none =>
      match e2 with
      | some e => some e
      | none => e3

/-- Whether an accept-loop input is an accepted connection. -/
def isConn : TEv → Bool
  | TEv.acceptConn => true
  | _ => false

/-- Whether an accept-loop outcome admitted a connection. -/
def isAdmitted : AccOut → Bool
  | AccOut.admitted _ => true
  | _ => false

/-- A backend whose `Write` always fails with a non-temporary network
error (a broken connection), for concrete instances. -/
def failingBackend : BackendM :=
  { writeErr := fun _ => some (ReadErr.netErr false) }

/-- Concrete gate at its cap: `maxclient = 1`, one live session. -/
def gFull : GateSt :=
  { session := 1, clinetnum := 1, maxclient := 1,
    sessions := [(1, tcpBackendM)] }

/-- Concrete fresh gate with no cap. -/
def gFree : GateSt := newGate 0

/-- Concrete uncapped gate holding sessions 1 and 2. -/
def gTwo : GateSt :=
  { session := 2, clinetnum := 2, maxclient := 0,
    sessions := [(1, failingBackend), (2, tcpBackendM)] }

end GateSpec

namespace GateSpec

/-! Helper lemmas shared by the claim theorems. -/

theorem lookup_eraseKey_self (id : Nat) (l : List (Nat × BackendM)) :
    (eraseKey id l).lookup id = none := by
  induction l with
  | nil => rfl
  | cons p rest ih =>
      rcases p with ⟨k, v⟩
      by_cases hk : k = id
      · have hb : (k != id) = false := by simp [hk]
        simpa [eraseKey, List.filter_cons, hb] using ih
      · have hb : (k != id) = true := by simp [hk]
        have hb2 : (id == k) = false := by simp [Ne.symm hk]
        simpa [eraseKey, List.filter_cons, hb, List.lookup, hb2] using ih

theorem lookup_eraseKey_ne (id j : Nat) (hj : j ≠ id)
    (l : List (Nat × BackendM)) :
    (eraseKey id l).lookup j = l.lookup j := by
  induction l with
  | nil => rfl
  | cons p rest ih =>
      rcases p with ⟨k, v⟩
      by_cases hk : k = id
      · have hb : (k != id) = false := by simp [hk]
        have hb2 : (j == k) = false := by simp [hk ▸ hj]
        simpa [eraseKey, List.filter_cons, hb, List.lookup, hb2] using ih
      · have hb : (k != id) = true := by simp [hk]
        by_cases hkj : j = k
        · have hb2 : (j == k) = true := by simp [hkj]
          simp [eraseKey, List.filter_cons, hb, List.lookup, hb2]
        · have hb2 : (j == k) = false := by simp [hkj]
          simpa [eraseKey, List.filter_cons, hb, List.lookup, hb2] using ih

theorem kick_maxclient (g : GateSt) (id : Nat) :
    (gateKick g id).1.maxclient = g.maxclient := by
  unfold gateKick
  cases g.sessions.lookup id <;> rfl

theorem dec32_of_pos (n : Nat) (h : 0 < n) : dec32 n = n - 1 := by
  cases n with
  | zero => omega
  | succ m => simp [dec32]

theorem sessionAfter_mod (n : Nat) : sessionAfter n = n % U32 := by
  induction n with
  | zero => rfl
  | succ n ih =>
      show (sessionAfter n + 1) % U32 = (n + 1) % U32
      rw [ih]
      simp only [U32]
      omega

end GateSpec

namespace GateSpec

/-- C1: in `TcpBackend.serve`, only a read failing with a non-temporary
`net.Error` terminates the loop and kicks the session.  `io.EOF` — the
disconnect / end-of-stream case the claim also calls unrecoverable — is
not a `net.Error`, so `readFull` returns nil for it and the loop keeps
running without ever invoking `kick`; a temporary `net.Error` also keeps
the loop running. -/
theorem readFull_eof_swallowed :
    readFull (some ReadErr.eof) = none ∧
    serveStep (some ReadErr.eof) none = StepRes.looped ∧
    serveStep none (some ReadErr.eof) = StepRes.looped ∧
    serveStep (some ReadErr.otherErr) none = StepRes.looped ∧
    serveStep (some (ReadErr.netErr false)) none = StepRes.kicked ∧
    serveStep none (some (ReadErr.netErr false)) = StepRes.kicked ∧
    serveStep (some (ReadErr.netErr true)) none = StepRes.looped := by
  decide

/-- C2: encoding a payload of length at most 65535 with `TcpBackend.Write`
and then decoding with the read loop's header-then-body procedure yields
the payload exactly, leaving the rest of the stream intact; and no 2-byte
header can denote a length above 65535, so longer payloads are
unrepresentable in the wire format. -/
theorem frame_roundtrip (data rest : List Nat) (h : data.length ≤ 65535) :
    readFrame (tcpWriteWire data ++ rest) = some (data, rest) ∧
    (∀ h1 h2 : Nat, h1 < 256 → h2 < 256 → uint16be h1 h2 ≤ 65535) := by
  constructor
  · have h6 : data.length < 65536 := by omega
    have hlen : uint16be (data.length / 256 % 256) (data.length % 256) =
        data.length := by
      have hdiv : data.length / 256 < 256 := Nat.div_lt_of_lt_mul (by omega)
      have := Nat.div_add_mod data.length 256
      simp only [uint16be]
      omega
    have hwire : tcpWriteWire data ++ rest =
        data.length / 256 % 256 :: data.length % 256 :: (data ++ rest) := by
      show (putUint16 (data.length % 65536) ++ data) ++ rest = _
      rw [Nat.mod_eq_of_lt h6]
      rfl
    rw [hwire]
    simp only [readFrame, hlen]
    rw [if_pos (by simp)]
    rw [List.take_left' rfl, List.drop_left' rfl]
  · intro h1 h2 hh1 hh2
    simp only [uint16be]
    omega

/-- Witness for C2 at the spec's own example: payload "hello". -/
theorem frame_roundtrip_witness :
    ([104, 101, 108, 108, 111] : List Nat).length ≤ 65535 ∧
    readFrame (tcpWriteWire [104, 101, 108, 108, 111] ++ []) =
      some ([104, 101, 108, 108, 111], []) ∧
    uint16be 255 255 ≤ 65535 :=
  ⟨by decide,
   (frame_roundtrip [104, 101, 108, 108, 111] [] (by decide)).1,
   (frame_roundtrip [104, 101, 108, 108, 111] [] (by decide)).2
     255 255 (by decide) (by decide)⟩

/-- C3 as stated is false on the code: `TcpBackend.Write` takes no lock,
so among the interleavings of the stream operations of two concurrent
`Write` calls (payloads `[1]` and `[2]`) there is one whose wire output is
neither frame-then-frame order, i.e. the frames interleave. -/
theorem write_not_serialized :
    ¬ ∀ ops ∈ interleavings (writeOps [1]) (writeOps [2]),
        (execOps ([], []) ops).2 = tcpWriteWire [1] ++ tcpWriteWire [2] ∨
        (execOps ([], []) ops).2 = tcpWriteWire [2] ++ tcpWriteWire [1] := by
  decide

/-- C3 amended: `TcpBackend.Write` issues header write, payload write and
flush in order but with no per-connection lock, so serialization holds
only for calls that do not overlap: a sequential execution of two calls
appends the two frames in call order, while some interleaving of two
overlapping calls yields wire bytes that match neither frame order. -/
theorem write_serialized_only_sequentially (d1 d2 wire : List Nat) :
    (execOps ([], wire) (writeOps d1 ++ writeOps d2)).2 =
      wire ++ tcpWriteWire d1 ++ tcpWriteWire d2 ∧
    ∃ ops ∈ interleavings (writeOps [1]) (writeOps [2]),
      (execOps ([], []) ops).2 ≠ tcpWriteWire [1] ++ tcpWriteWire [2] ∧
      (execOps ([], []) ops).2 ≠ tcpWriteWire [2] ++ tcpWriteWire [1] := by
  refine ⟨rfl, ?_⟩
  refine ⟨[WOp.wbytes (putUint16 1), WOp.wbytes (putUint16 1),
           WOp.wbytes [1], WOp.wbytes [2], WOp.flush, WOp.flush],
          by decide, by decide, by decide⟩

/-- C10: a payload longer than 65535 bytes is not rejected by
`TcpBackend.Write`: with an error-free stream the call returns nil, and
the wire carries a 2-byte header holding the length reduced mod 65536
followed by the entire payload, so the header no longer matches the
number of payload bytes that follow. -/
theorem oversized_write_truncated_header (data : List Nat)
    (h : 65535 < data.length) :
    tcpWriteErr none none none = none ∧
    tcpWriteWire data = putUint16 (data.length % 65536) ++ data ∧
    headVal (tcpWriteWire data) = data.length % 65536 ∧
    headVal (tcpWriteWire data) ≠ data.length ∧
    (tcpWriteWire data).drop 2 = data := by
  have hmod : data.length % 65536 < 65536 := Nat.mod_lt _ (by omega)
  have hhead : headVal (tcpWriteWire data) = data.length % 65536 := by
    show headVal (putUint16 (data.length % 65536) ++ data) = _
    have hdiv : data.length % 65536 / 256 < 256 :=
      Nat.div_lt_of_lt_mul (by omega)
    have := Nat.div_add_mod (data.length % 65536) 256
    simp only [putUint16, List.cons_append, headVal, uint16be]
    omega
  exact ⟨rfl, rfl, hhead, by omega, rfl⟩

/-- Witness for C10: a 65536-byte payload gets header value 0. -/
theorem oversized_write_truncated_header_witness :
    65535 < (List.replicate 65536 (7 : Nat)).length ∧
    headVal (tcpWriteWire (List.replicate 65536 (7 : Nat))) = 0 ∧
    headVal (tcpWriteWire (List.replicate 65536 (7 : Nat))) ≠
      (List.replicate 65536 (7 : Nat)).length := by
  have h : 65535 < (List.replicate 65536 (7 : Nat)).length := by
    rw [List.length_replicate]
    omega
  have hth := oversized_write_truncated_header (List.replicate 65536 7) h
  exact ⟨h, hth.2.2.1.trans (by rw [List.length_replicate]), hth.2.2.2.1⟩

/-- C4: in raw-TCP mode, an accepted connection that finds the nonzero
cap reached is closed at once and the accept loop breaks: no later input
— not even after concurrent kicks lower the live count — admits a
connection; with `maxclient = 0` every accepted connection is admitted
and the loop never refuses. -/
theorem tcp_admission_cap (g : GateSt) (evs : List TEv) :
    (g.maxclient ≠ 0 → g.maxclient ≤ g.clinetnum →
      acceptLoop g (TEv.acceptConn :: evs) = (g, [AccOut.refusedClosed])) ∧
    (g.maxclient = 0 →
      (acceptLoop g evs).2.countP isAdmitted = evs.countP isConn ∧
      AccOut.refusedClosed ∉ (acceptLoop g evs).2) := by
  constructor
  · intro h1 h2
    simp [acceptLoop, h1, h2]
  · intro h0
    induction evs generalizing g with
    | nil => simp [acceptLoop]
    | cons ev rest ih =>
        cases ev with
        | acceptErr =>
            simpa [acceptLoop, List.countP_cons, isConn] using ih g h0
        | kickEv id =>
            have hm : (gateKick g id).1.maxclient = 0 :=
              (kick_maxclient g id).trans h0
            simpa [acceptLoop, List.countP_cons, isConn] using
              ih (gateKick g id).1 hm
        | acceptConn =>
            have hcond : ¬ (g.maxclient ≠ 0 ∧ g.maxclient ≤ g.clinetnum) := by
              simp [h0]
            have ih' := ih { g with
              session := nextSession g.session,
              clinetnum := (g.clinetnum + 1) % U32,
              sessions := (nextSession g.session, tcpBackendM) :: g.sessions } h0
            simp [acceptLoop, hcond, List.countP_cons, isConn, isAdmitted,
              ih'.1, ih'.2]

/-- Witness for C4: a gate at cap 1 refuses and stops even though a kick
then frees a slot; an uncapped fresh gate admits both connections. -/
theorem tcp_admission_cap_witness :
    (gFull.maxclient ≠ 0 ∧ gFull.maxclient ≤ gFull.clinetnum ∧
      acceptLoop gFull [TEv.acceptConn, TEv.kickEv 1, TEv.acceptConn] =
        (gFull, [AccOut.refusedClosed])) ∧
    (gFree.maxclient = 0 ∧
      (acceptLoop gFree
          [TEv.acceptConn, TEv.acceptErr, TEv.acceptConn]).2.countP isAdmitted =
        List.countP isConn [TEv.acceptConn, TEv.acceptErr, TEv.acceptConn] ∧
      AccOut.refusedClosed ∉
        (acceptLoop gFree [TEv.acceptConn, TEv.acceptErr, TEv.acceptConn]).2) :=
  ⟨⟨by decide, by decide,
    (tcp_admission_cap gFull [TEv.kickEv 1, TEv.acceptConn]).1
      (by decide) (by decide)⟩,
   ⟨rfl,
    ((tcp_admission_cap gFree
        [TEv.acceptConn, TEv.acceptErr, TEv.acceptConn]).2 rfl).1,
    ((tcp_admission_cap gFree
        [TEv.acceptConn, TEv.acceptErr, TEv.acceptConn]).2 rfl).2⟩⟩

/-- C5: `Gate.Write` to a session id that is not in the registry returns
nil with no effect — indistinguishable from success; to a registered id it
returns exactly the backend's `Write` error, and the registry is untouched
either way. -/
theorem gate_write_missing_silent (g : GateSt) (id : Nat) (data : List Nat) :
    (g.sessions.lookup id = none → gateWrite g id data = (none, g)) ∧
    (∀ b, g.sessions.lookup id = some b →
      gateWrite g id data = (b.writeErr data, g)) := by
  constructor
  · intro h
    simp [gateWrite, h]
  · intro b h
    simp [gateWrite, h]

/-- Witness for C5: id 3 is absent from `gTwo` (nil, no effect); id 1 is
present and its backend's error is propagated. -/
theorem gate_write_missing_silent_witness :
    gTwo.sessions.lookup 3 = none ∧
    gateWrite gTwo 3 [9] = (none, gTwo) ∧
    gTwo.sessions.lookup 1 = some failingBackend ∧
    gateWrite gTwo 1 [9] = (some (ReadErr.netErr false), gTwo) :=
  ⟨rfl, (gate_write_missing_silent gTwo 3 [9]).1 rfl, rfl,
   (gate_write_missing_silent gTwo 1 [9]).2 failingBackend rfl⟩

/-- C6: kicking an id that is not in the registry is a no-op: the state
(registry and live count) is unchanged, no backend `Close()` runs, and the
trace holds no action besides taking and releasing the lock (no event). -/
theorem kick_missing_noop (g : GateSt) (id : Nat)
    (h : g.sessions.lookup id = none) :
    gateKick g id = (g, [KAct.lockEx, KAct.unlockEx]) ∧
    ∀ i, KAct.closeB i ∉ (gateKick g id).2 := by
  have h1 : gateKick g id = (g, [KAct.lockEx, KAct.unlockEx]) := by
    simp [gateKick, h]
  refine ⟨h1, fun i => ?_⟩
  rw [h1]
  simp

/-- Witness for C6 at the spec's scenario: kicking the never-allocated id
999 on a concrete gate. -/
theorem kick_missing_noop_witness :
    gTwo.sessions.lookup 999 = none ∧
    gateKick gTwo 999 = (gTwo, [KAct.lockEx, KAct.unlockEx]) ∧
    KAct.closeB 999 ∉ (gateKick gTwo 999).2 :=
  ⟨rfl, (kick_missing_noop gTwo 999 rfl).1, (kick_missing_noop gTwo 999 rfl).2 999⟩

/-- C7: kicking a registered id removes exactly that entry (every other
id's lookup is unchanged), decrements the live count by one, and the
trace shows the backend's `Close()` running only after the exclusive lock
is released. -/
theorem kick_present_removes (g : GateSt) (id : Nat) (b : BackendM)
    (hb : g.sessions.lookup id = some b) (hpos : 0 < g.clinetnum) :
    (gateKick g id).1.sessions.lookup id = none ∧
    (∀ j, j ≠ id → (gateKick g id).1.sessions.lookup j = g.sessions.lookup j) ∧
    (gateKick g id).1.clinetnum = g.clinetnum - 1 ∧
    (gateKick g id).1.session = g.session ∧
    (gateKick g id).1.maxclient = g.maxclient ∧
    (gateKick g id).2 = [KAct.lockEx, KAct.unlockEx, KAct.closeB id] := by
  have hg : gateKick g id =
      ({ g with sessions := eraseKey id g.sessions,
                clinetnum := dec32 g.clinetnum },
       [KAct.lockEx, KAct.unlockEx, KAct.closeB id]) := by
    simp [gateKick, hb]
  rw [hg]
  exact ⟨lookup_eraseKey_self id g.sessions,
    fun j hj => lookup_eraseKey_ne id j hj g.sessions,
    dec32_of_pos _ hpos, rfl, rfl, rfl⟩

/-- Witness for C7: kicking session 1 of `gTwo` removes it, keeps
session 2, drops the count from 2 to 1, and closes after unlocking. -/
theorem kick_present_removes_witness :
    gTwo.sessions.lookup 1 = some failingBackend ∧ 0 < gTwo.clinetnum ∧
    (gateKick gTwo 1).1.sessions.lookup 1 = none ∧
    (gateKick gTwo 1).1.sessions.lookup 2 = gTwo.sessions.lookup 2 ∧
    (gateKick gTwo 1).1.clinetnum = gTwo.clinetnum - 1 ∧
    (gateKick gTwo 1).2 = [KAct.lockEx, KAct.unlockEx, KAct.closeB 1] := by
  have h := kick_present_removes gTwo 1 failingBackend rfl (by decide)
  exact ⟨rfl, by decide, h.1, h.2.1 2 (by decide), h.2.2.1, h.2.2.2.2.2⟩

/-- C8: a WebSocket upgrade arriving at a reached nonzero cap is refused
silently — the state (including the session counter) is unchanged, no
event; an upgrade whose handshake fails consumes a session id but the id
is never registered, the live count is unchanged, and no event mentions
it. -/
theorem ws_refusal_and_failed_upgrade (g : GateSt) :
    (g.maxclient ≠ 0 → g.maxclient ≤ g.clinetnum →
      ∀ ok, wsHandle g ok = (g, WsOut.refused, [])) ∧
    (¬(g.maxclient ≠ 0 ∧ g.maxclient ≤ g.clinetnum) →
      wsHandle g false =
        ({ g with session := nextSession g.session },
         WsOut.handshakeFailed (nextSession g.session), []) ∧
      (wsHandle g false).1.sessions = g.sessions ∧
      (wsHandle g false).1.clinetnum = g.clinetnum ∧
      (wsHandle g false).2.2 = []) := by
  constructor
  · intro h1 h2 ok
    simp [wsHandle, h1, h2]
  · intro h
    refine ⟨by simp [wsHandle, h], ?_, ?_, ?_⟩ <;> simp [wsHandle, h]

/-- Witness for C8: `gFull` (at cap 1) refuses an upgrade untouched; a
failed handshake on the fresh `gFree` burns id 1 without registering it,
bumping the count, or emitting an event. -/
theorem ws_refusal_and_failed_upgrade_witness :
    gFull.maxclient ≠ 0 ∧ gFull.maxclient ≤ gFull.clinetnum ∧
    wsHandle gFull true = (gFull, WsOut.refused, []) ∧
    (wsHandle gFree false).1.sessions = gFree.sessions ∧
    (wsHandle gFree false).1.clinetnum = gFree.clinetnum ∧
    (wsHandle gFree false).2.2 = [] := by
  have h1 := (ws_refusal_and_failed_upgrade gFull).1 (by decide) (by decide) true
  have h2 := (ws_refusal_and_failed_upgrade gFree).2 (by decide)
  exact ⟨by decide, by decide, h1, h2.2.1, h2.2.2.1, h2.2.2.2⟩

/-- C9 as stated is false on the code: the session counter is a `uint32`
and `atomic.AddUint32` wraps, so the call after the one that returned
`2^32 - 1` returns 0 — not strictly greater — and the `(2^32 + 1)`-th
call returns 1, the same id the first call returned: an id is reused
within the run. -/
theorem session_wrap_counterexample :
    sessionAfter 1 = 1 ∧
    sessionAfter (U32 + 1) = sessionAfter 1 ∧
    sessionAfter U32 < sessionAfter (U32 - 1) := by
  simp only [sessionAfter_mod, U32]
  norm_num

/-- C9 amended: ids come from an atomic increment mod `2^32` starting at
1: the first call on a fresh gate returns 1, and as long as fewer than
`2^32` ids have been generated in the run they are strictly increasing
(hence never repeated); at the `2^32`-th call the counter wraps to 0 and
the sequence repeats. -/
theorem session_ids_monotone_below_wrap :
    nextSession (newGate 0).session = 1 ∧
    sessionAfter U32 = 0 ∧
    (∀ m n, m < n → n < U32 → sessionAfter m < sessionAfter n) := by
  refine ⟨rfl, ?_, ?_⟩
  · rw [sessionAfter_mod]
    exact Nat.mod_self U32
  · intro m n hmn hn
    rw [sessionAfter_mod, sessionAfter_mod,
      Nat.mod_eq_of_lt (lt_trans hmn hn), Nat.mod_eq_of_lt hn]
    exact hmn

/-- Witness for C9 (amended): calls 2 and 5 are below the wrap and their
ids are in strict order. -/
theorem session_ids_monotone_below_wrap_witness :
    (2 : Nat) < 5 ∧ 5 < U32 ∧ sessionAfter 2 < sessionAfter 5 :=
  ⟨by norm_num, by norm_num [U32],
   session_ids_monotone_below_wrap.2.2 2 5 (by norm_num) (by norm_num [U32])⟩

end GateSpec
